import Mathlib

deriving instance DecidableEq for Except

/-!
Verification of mozilla_ci_tools against its specification.

Shallow embedding of the three source files:
- mozci/sources/buildjson.py  (buildjson day-file queries)
- mozci/scripts/misc/taskcluster_retrigger.py  (task retriggering)
- mozci/platforms.py  (only its tests are in the repository snapshot; the
  functions under test are modelled from the specification, as marked)
-/

/-! ## Model of mozci/sources/buildjson.py -/

/-- A job entry of a buildjson "builds" list.  Only `request_ids` is read by
`query_job_data`; `builder_id` and `result` stand for the rest of the record
and keep distinct entries distinguishable. -/
structure Job where
  request_ids : List Int
  builder_id : Int
  result : Int
deriving DecidableEq

/-- Content of a `builds-<date>.js` file: the JSON document's "builds" list. -/
structure BuildFile where
  builds : List Job
deriving DecidableEq

/-- A Python runtime value carrying its type tag, to model the
`type(x) is int` assertions at the top of `query_job_data`. -/
inductive PyVal where
  | vint (n : Int)
  | vfloat (num den : Int)
  | vstr (s : String)
deriving DecidableEq

/-- Whether `type(x) is int` holds for a `PyVal`. -/
def PyVal.isInt : PyVal → Bool
  | PyVal.vint _ => true
  | _ => false

/-- Filesystem and network state seen by buildjson queries: `disk d` is the
content of `builds-d.js` when present, `net d` is the (decompressed) remote
archive for day `d`, `downloads` logs each network fetch, and `today` is the
current UTC day. -/
structure FS where
  disk : Int → Option BuildFile
  net : Int → BuildFile
  downloads : List Int
  today : Int

/-- Modelled from the spec: `mozci.utils.tzone.utc_day` is not under src/.
"derive the UTC day from the timestamp" — the day index of an epoch-seconds
timestamp, by floor division. -/
def utc_day (timestamp : Int) : Int := Int.fdiv timestamp 86400

/-- `_fetch_buildjson_day_file(date)`: return the cached file's "builds" list
when `builds-<date>.js` exists on disk; otherwise download the day's archive,
persist it, and return its "builds" list. -/
def fetch_buildjson_day_file (date : Int) (fs : FS) : List Job × FS :=
  match fs.disk date with
  | some f => (f.builds, fs)
  | none =>
      let f := fs.net date
      (f.builds,
        { fs with
          disk := fun d => if d = date then some f else fs.disk d
          downloads := fs.downloads ++ [date] })

/-- Outcome of a `query_job_data` call. -/
inductive QueryResult where
  | found (j : Job)
  | notFound
  | assertionError
  | raisedException
deriving DecidableEq

/-- `query_job_data(complete_at, request_id)`: assert both arguments are
ints, derive the UTC day, and either take the unimplemented 4-hour path
(today) — which raises — or load the day file and return the first job whose
`request_ids` contains `request_id`, else fall through (not found). -/
def query_job_data (complete_at request_id : PyVal) (fs : FS) :
    QueryResult × FS :=
  match request_id, complete_at with
  | PyVal.vint rid, PyVal.vint c =>
    let date := utc_day c
    if fs.today = date then
      (QueryResult.raisedException, fs)
    else
      let r := fetch_buildjson_day_file date fs
      match r.1.find? (fun j => j.request_ids.contains rid) with
      | some j => (QueryResult.found j, r.2)
      | none => (QueryResult.notFound, r.2)
  | _, _ => (QueryResult.assertionError, fs)

/-- The day's archive content, independently of whether it is cached yet. -/
def dayArchive (fs : FS) (date : Int) : BuildFile :=
  match fs.disk date with
  | some f => f
  | none => fs.net date

/-- Concrete job used in counterexamples and witnesses. -/
def cday_job : Job := { request_ids := [7], builder_id := 1, result := 0 }

/-- A state whose current UTC day is day 0, with a matching job available in
the network archive for day 0. -/
def cday_fs : FS :=
  { disk := fun _ => none
    net := fun _ => { builds := [cday_job] }
    downloads := []
    today := 0 }

/-- A state for the cache-frame witness: day 0 is already on disk, today is
day 5. -/
def cache_fs : FS :=
  { disk := fun d => if d = 0 then some { builds := [cday_job] } else none
    net := fun _ => { builds := [] }
    downloads := []
    today := 5 }

/-! ## Theorems about buildjson queries -/

/-- C1 (counterexample): for a `complete_at` falling on the current UTC day
(`utc_day 100 = 0 = cday_fs.today`) the day's archive holds a job matching
request id 7, yet `query_job_data` raises (the 4-hour path is unimplemented)
instead of returning that first matching entry. -/
theorem query_job_data_today_counterexample :
    (cday_fs.net (utc_day 100)).builds.find? (fun j => j.request_ids.contains 7)
      = some cday_job
    ∧ (query_job_data (PyVal.vint 100) (PyVal.vint 7) cday_fs).1
      = QueryResult.raisedException
    ∧ QueryResult.raisedException ≠ QueryResult.found cday_job :=
  ⟨by decide, by decide, by decide⟩

/-- C1 (amended): for integer `complete_at` and `request_id` with
`complete_at` not on the current UTC day, `query_job_data` derives the UTC
day, reads that day's archive (downloading and persisting it first when not
on disk — the second conjunct shows the file is on disk afterwards with the
archive's content) and returns the first job whose `request_ids` contains
`request_id`, or a not-found signal when no entry matches. -/
theorem query_job_data_past_day_spec (fs : FS) (c rid : Int)
    (h : fs.today ≠ utc_day c) :
    (query_job_data (PyVal.vint c) (PyVal.vint rid) fs).1 =
      (match (dayArchive fs (utc_day c)).builds.find?
          (fun j => j.request_ids.contains rid) with
       | some j => QueryResult.found j
       | none => QueryResult.notFound)
    ∧ ((query_job_data (PyVal.vint c) (PyVal.vint rid) fs).2).disk (utc_day c)
        = some (dayArchive fs (utc_day c)) := by
  cases hdisk : fs.disk (utc_day c) with
  | some f =>
    simp only [query_job_data, fetch_buildjson_day_file, dayArchive, hdisk, if_neg h]
    cases hfind : f.builds.find? (fun j => j.request_ids.contains rid) <;>
      simp [hfind, hdisk]
  | none =>
    simp only [query_job_data, fetch_buildjson_day_file, dayArchive, hdisk, if_neg h]
    cases hfind : (fs.net (utc_day c)).builds.find?
        (fun j => j.request_ids.contains rid) <;>
      simp [hfind, hdisk]

/-- C1 witness: the amended statement at a concrete cached state and inputs. -/
theorem query_job_data_past_day_spec_witness :
    cache_fs.today ≠ utc_day 100
    ∧ ((query_job_data (PyVal.vint 100) (PyVal.vint 7) cache_fs).1 =
        (match (dayArchive cache_fs (utc_day 100)).builds.find?
            (fun j => j.request_ids.contains 7) with
         | some j => QueryResult.found j
         | none => QueryResult.notFound)
      ∧ ((query_job_data (PyVal.vint 100) (PyVal.vint 7) cache_fs).2).disk (utc_day 100)
          = some (dayArchive cache_fs (utc_day 100))) :=
  ⟨by decide, query_job_data_past_day_spec cache_fs 100 7 (by decide)⟩

/-- C7: for a past UTC day already on disk, `query_job_data` leaves the whole
state unchanged (no download, cached file byte-for-byte intact); when the day
file is absent, it is downloaded (the download log grows by that day) and
written to disk with the network archive's content. -/
theorem day_file_cache_frame (fs : FS) (c rid : Int)
    (h : fs.today ≠ utc_day c) :
    (∀ f, fs.disk (utc_day c) = some f →
       (query_job_data (PyVal.vint c) (PyVal.vint rid) fs).2 = fs)
    ∧ (fs.disk (utc_day c) = none →
       ((query_job_data (PyVal.vint c) (PyVal.vint rid) fs).2).disk (utc_day c)
           = some (fs.net (utc_day c))
       ∧ ((query_job_data (PyVal.vint c) (PyVal.vint rid) fs).2).downloads
           = fs.downloads ++ [utc_day c]) := by
  constructor
  · intro f hdisk
    simp only [query_job_data, fetch_buildjson_day_file, hdisk, if_neg h]
    cases hfind : f.builds.find? (fun j => j.request_ids.contains rid) <;> simp
  · intro hdisk
    simp only [query_job_data, fetch_buildjson_day_file, hdisk, if_neg h]
    cases hfind : (fs.net (utc_day c)).builds.find?
        (fun j => j.request_ids.contains rid) <;> simp

/-- C7 witness: the cache frame property at a concrete state whose day-0
file is on disk, for a timestamp on day 0 with today being day 5. -/
theorem day_file_cache_frame_witness :
    cache_fs.today ≠ utc_day 100
    ∧ ((∀ f, cache_fs.disk (utc_day 100) = some f →
         (query_job_data (PyVal.vint 100) (PyVal.vint 7) cache_fs).2 = cache_fs)
      ∧ (cache_fs.disk (utc_day 100) = none →
         ((query_job_data (PyVal.vint 100) (PyVal.vint 7) cache_fs).2).disk (utc_day 100)
             = some (cache_fs.net (utc_day 100))
         ∧ ((query_job_data (PyVal.vint 100) (PyVal.vint 7) cache_fs).2).downloads
             = cache_fs.downloads ++ [utc_day 100])) :=
  ⟨by decide, day_file_cache_frame cache_fs 100 7 (by decide)⟩

/-- C8: whenever `complete_at` or `request_id` is not an int (wrong runtime
type tag), `query_job_data` fails the entry assertions and performs no file
or network access: the state component of the result is the input state,
unchanged. -/
theorem query_job_data_type_assertions (fs : FS) (a b : PyVal)
    (h : a.isInt = false ∨ b.isInt = false) :
    query_job_data a b fs = (QueryResult.assertionError, fs) := by
  cases a <;> cases b <;> simp_all [PyVal.isInt, query_job_data]

/-- C8 witness: a float `complete_at` with an int `request_id` is rejected at
entry, state untouched. -/
theorem query_job_data_type_assertions_witness :
    ((PyVal.vfloat 3 2).isInt = false ∨ (PyVal.vint 7).isInt = false)
    ∧ query_job_data (PyVal.vfloat 3 2) (PyVal.vint 7) cday_fs
        = (QueryResult.assertionError, cday_fs) :=
  ⟨Or.inl rfl,
   query_job_data_type_assertions cday_fs (PyVal.vfloat 3 2) (PyVal.vint 7)
     (Or.inl rfl)⟩

/-! ## Model of mozci/scripts/misc/taskcluster_retrigger.py -/

/-- One artifact of a task payload: its key and its `expires` timestamp
(epoch seconds; the script overwrites it with `fromNow('365 days')`). -/
structure Artifact where
  name : String
  expires : Int
deriving DecidableEq

/-- A TaskCluster task definition: the fields the retrigger script touches,
plus `provisionerId` standing for the untouched remainder. -/
structure TCTask where
  taskGroupId : String
  created : Int
  deadline : Int
  expires : Int
  artifacts : List Artifact
  provisionerId : String
deriving DecidableEq

/-- Errors surfaced by the TaskCluster client: `authFailure` models
`taskcluster.exceptions.TaskclusterAuthFailure` carrying `str(e)`, and
`networkError` any other exception, which `main` does not catch. -/
inductive TCError where
  | authFailure (msg : String)
  | networkError (msg : String)
deriving DecidableEq

/-- The remote queue as seen by one run: `task` fetches a task definition by
id, `createTask` submits a new task under a new id and reports the outcome. -/
structure TCQueue where
  task : String → Except TCError TCTask
  createTask : String → TCTask → Except TCError Unit

/-- The per-task body of `main`'s retrigger loop: set every artifact's
`expires` to 365 days from now, then taskGroupId := the new task id,
expires := 48 hours from now, created := now, deadline := 24 hours from now. -/
def retrigger_task (now : Int) (new_task_id : String) (task : TCTask) : TCTask :=
  { task with
    artifacts := task.artifacts.map (fun a => { a with expires := now + 365 * 86400 })
    taskGroupId := new_task_id
    expires := now + 48 * 3600
    created := now
    deadline := now + 24 * 3600 }

/-- The `for t_id in options.task_ids` loop, each id paired with the fresh
slug generated for it.  Returns the `createTask` calls made (new id and
submitted task) and the first exception, if any; any exception ends the
loop. -/
def retriggerLoop (q : TCQueue) (now : Int) :
    List (String × String) → List (String × TCTask) × Option TCError
  | [] => ([], none)
  | p :: rest =>
    match q.task p.1 with
    | Except.error e => ([], some e)
    | Except.ok task =>
      let newTask := retrigger_task now p.2 task
      match q.createTask p.2 newTask with
      | Except.error e => ([(p.2, newTask)], some e)
      | Except.ok _ =>
        let r := retriggerLoop q now rest
        ((p.2, newTask) :: r.1, r.2)

/-- How the process run ends: fell off the end of `main`, called
`sys.exit(1)` after logging the given actionable info messages, or died with
an uncaught exception. -/
inductive MainOutcome where
  | finished
  | exitedNonZero (actionable : List String)
  | uncaughtException (e : TCError)
deriving DecidableEq

/-- The one actionable info message `main` logs for the
"Authentication Error" case before `sys.exit(1)`. -/
def credentialsHelp : List String :=
  ["Make sure that you create permanent credentials and you set these environment variables: TASKCLUSTER_CLIENT_ID, TASKCLUSTER_ACCESS_TOKEN"]

/-- `main` with `-r`: run the retrigger loop; on a TaskclusterAuthFailure
whose message is "Authorization Failed", re-raise it (the actionable
authorization messages below the `raise e` are unreachable); on
"Authentication Error", log the credentials help and `sys.exit(1)`; on any
other auth-failure message, `sys.exit(1)` with nothing actionable logged;
any other exception propagates uncaught. -/
def mainRetrigger (q : TCQueue) (now : Int) (pairs : List (String × String)) :
    MainOutcome × List (String × TCTask) :=
  let r := retriggerLoop q now pairs
  match r.2 with
  | none => (MainOutcome.finished, r.1)
  | some (TCError.authFailure msg) =>
    if msg = "Authorization Failed" then
      (MainOutcome.uncaughtException (TCError.authFailure msg), r.1)
    else if msg = "Authentication Error" then
      (MainOutcome.exitedNonZero credentialsHelp, r.1)
    else
      (MainOutcome.exitedNonZero [], r.1)
  | some (TCError.networkError m) =>
    (MainOutcome.uncaughtException (TCError.networkError m), r.1)

/-- Concrete artifact for witnesses. -/
def exArtifact : Artifact := { name := "public/build", expires := 0 }

/-- Concrete task definition for witnesses. -/
def exTask : TCTask :=
  { taskGroupId := "old-group", created := 0, deadline := 0, expires := 0,
    artifacts := [exArtifact], provisionerId := "aws-provisioner-v1" }

/-- A queue on which every fetch and every submission succeeds. -/
def qOk : TCQueue :=
  { task := fun _ => Except.ok exTask
    createTask := fun _ _ => Except.ok () }

/-- A queue failing every fetch with the "Authorization Failed" auth error. -/
def qAuthz : TCQueue :=
  { task := fun _ => Except.error (TCError.authFailure "Authorization Failed")
    createTask := fun _ _ => Except.ok () }

/-- A queue failing every fetch with the "Authentication Error" auth error. -/
def qAuthn : TCQueue :=
  { task := fun _ => Except.error (TCError.authFailure "Authentication Error")
    createTask := fun _ _ => Except.ok () }

/-- A queue failing every fetch with a non-auth network error. -/
def qNet : TCQueue :=
  { task := fun _ => Except.error (TCError.networkError "connection reset")
    createTask := fun _ _ => Except.ok () }

/-- A queue on which only task id "b" fails, with an auth failure. -/
def qBadB : TCQueue :=
  { task := fun i =>
      if i = "b" then Except.error (TCError.authFailure "Authentication Error")
      else Except.ok exTask
    createTask := fun _ _ => Except.ok () }

/-! ## Theorems about the retrigger script -/

/-- All field resets performed by `retrigger_task`. -/
theorem retrigger_task_fields (now : Int) (nid : String) (t : TCTask) :
    (retrigger_task now nid t).taskGroupId = nid
    ∧ (retrigger_task now nid t).created = now
    ∧ (retrigger_task now nid t).expires = now + 48 * 3600
    ∧ (retrigger_task now nid t).deadline = now + 24 * 3600
    ∧ ∀ a ∈ (retrigger_task now nid t).artifacts,
        a.expires = now + 365 * 86400 := by
  refine ⟨rfl, rfl, rfl, rfl, ?_⟩
  intro a ha
  simp only [retrigger_task, List.mem_map] at ha
  obtain ⟨b, hb, rfl⟩ := ha
  rfl

/-- C2: when every fetch and submission succeeds, each supplied task id leads
to a createTask call under its fresh slug id, submitting a task whose
taskGroupId is that new id, whose created is the current time, whose expires
is 48 hours from now, whose deadline is 24 hours from now, and all of whose
payload artifacts expire 365 days from now. -/
theorem retrigger_submits_fresh_task (q : TCQueue) (now : Int)
    (pairs : List (String × String))
    (hok : ∀ p ∈ pairs, ∃ t, q.task p.1 = Except.ok t ∧
        q.createTask p.2 (retrigger_task now p.2 t) = Except.ok ()) :
    ∀ p ∈ pairs, ∀ t, q.task p.1 = Except.ok t →
      ((p.2, retrigger_task now p.2 t) ∈ (retriggerLoop q now pairs).1
      ∧ (retrigger_task now p.2 t).taskGroupId = p.2
      ∧ (retrigger_task now p.2 t).created = now
      ∧ (retrigger_task now p.2 t).expires = now + 48 * 3600
      ∧ (retrigger_task now p.2 t).deadline = now + 24 * 3600
      ∧ ∀ a ∈ (retrigger_task now p.2 t).artifacts,
          a.expires = now + 365 * 86400) := by
  induction pairs with
  | nil => intro p hp; cases hp
  | cons hd tl ih =>
    intro p hp t ht
    obtain ⟨t0, ht0, hc0⟩ := hok hd (List.mem_cons_self _ _)
    have hloop : retriggerLoop q now (hd :: tl) =
        ((hd.2, retrigger_task now hd.2 t0) :: (retriggerLoop q now tl).1,
         (retriggerLoop q now tl).2) := by
      simp [retriggerLoop, ht0, hc0]
    rcases List.mem_cons.mp hp with rfl | hmem
    · injection ht.symm.trans ht0 with hE
      subst hE
      obtain ⟨f1, f2, f3, f4, f5⟩ := retrigger_task_fields now p.2 t
      exact ⟨by rw [hloop]; exact List.mem_cons_self _ _, f1, f2, f3, f4, f5⟩
    · have ihp := ih (fun p2 hp2 => hok p2 (List.mem_cons_of_mem _ hp2)) p hmem t ht
      refine ⟨?_, ihp.2⟩
      rw [hloop]
      exact List.mem_cons_of_mem _ ihp.1

/-- C2 witness: one task id on an all-success queue at time 1000. -/
theorem retrigger_submits_fresh_task_witness :
    ("n1", retrigger_task 1000 "n1" exTask)
        ∈ (retriggerLoop qOk 1000 [("t1", "n1")]).1
    ∧ (retrigger_task 1000 "n1" exTask).taskGroupId = "n1"
    ∧ (retrigger_task 1000 "n1" exTask).created = 1000
    ∧ (retrigger_task 1000 "n1" exTask).expires = 1000 + 48 * 3600
    ∧ (retrigger_task 1000 "n1" exTask).deadline = 1000 + 24 * 3600
    ∧ ∀ a ∈ (retrigger_task 1000 "n1" exTask).artifacts,
        a.expires = 1000 + 365 * 86400 :=
  retrigger_submits_fresh_task qOk 1000 [("t1", "n1")]
    (by intro p hp; exact ⟨exTask, rfl, rfl⟩)
    ("t1", "n1") (List.mem_singleton.mpr rfl) exTask rfl

/-- C3: outcome of `main` per failure kind.  A TaskclusterAuthFailure whose
message is "Authorization Failed" is re-raised (uncaught, no actionable
message logged — the logging after `raise e` is dead code); an
"Authentication Error" failure logs the credentials help and exits 1; a
non-auth network failure propagates uncaught. -/
theorem retrigger_auth_failure_behavior :
    (mainRetrigger qAuthz 0 [("t1", "n1")]).1
      = MainOutcome.uncaughtException (TCError.authFailure "Authorization Failed")
    ∧ (mainRetrigger qAuthn 0 [("t1", "n1")]).1
      = MainOutcome.exitedNonZero credentialsHelp
    ∧ (mainRetrigger qNet 0 [("t1", "n1")]).1
      = MainOutcome.uncaughtException (TCError.networkError "connection reset") :=
  ⟨rfl, rfl, rfl⟩

/-- C10: if every id before `bad` is processed successfully and processing
`bad` hits a TaskclusterAuthFailure (on fetch or on submission), the loop's
result does not depend on the ids after `bad`: no createTask call is made for
any of them, and at most `pre.length + 1` createTask calls happen at all. -/
theorem auth_failure_aborts_batch (q : TCQueue) (now : Int)
    (pre post : List (String × String)) (bad : String × String)
    (hpre : ∀ p ∈ pre, ∃ t, q.task p.1 = Except.ok t ∧
        q.createTask p.2 (retrigger_task now p.2 t) = Except.ok ())
    (hbad : (∃ m, q.task bad.1 = Except.error (TCError.authFailure m)) ∨
        (∃ t m, q.task bad.1 = Except.ok t ∧
         q.createTask bad.2 (retrigger_task now bad.2 t)
           = Except.error (TCError.authFailure m))) :
    retriggerLoop q now (pre ++ bad :: post) = retriggerLoop q now (pre ++ [bad])
    ∧ (retriggerLoop q now (pre ++ bad :: post)).1.length ≤ pre.length + 1 := by
  induction pre with
  | nil =>
    rcases hbad with ⟨m, hm⟩ | ⟨t, m, ht, hm⟩
    · constructor <;> simp [retriggerLoop, hm]
    · constructor <;> simp [retriggerLoop, ht, hm]
  | cons hd tl ih =>
    obtain ⟨t0, ht0, hc0⟩ := hpre hd (List.mem_cons_self _ _)
    obtain ⟨ih1, ih2⟩ := ih (fun p hp => hpre p (List.mem_cons_of_mem _ hp))
    constructor
    · simp only [List.cons_append, retriggerLoop, ht0, hc0, List.append_eq, ih1]
    · simp only [List.cons_append, retriggerLoop, ht0, hc0, List.append_eq,
        List.length_cons]
      omega

/-- C10 witness: ids a, b, c where b fails with an auth failure — the result
equals the run without c, and at most two createTask calls happen. -/
theorem auth_failure_aborts_batch_witness :
    retriggerLoop qBadB 0 ([("a", "na")] ++ ("b", "nb") :: [("c", "nc")])
      = retriggerLoop qBadB 0 ([("a", "na")] ++ [("b", "nb")])
    ∧ (retriggerLoop qBadB 0
        ([("a", "na")] ++ ("b", "nb") :: [("c", "nc")])).1.length
      ≤ [("a", "na")].length + 1 :=
  auth_failure_aborts_batch qBadB 0 [("a", "na")] [("c", "nc")] ("b", "nb")
    (by
      intro p hp
      rw [List.mem_singleton] at hp
      subst hp
      exact ⟨exTask, rfl, rfl⟩)
    (Or.inl ⟨"Authentication Error", rfl⟩)

/-! ## Model of `byteify` (taskcluster_retrigger.py) -/

/-- UTF-8 encoding of one Unicode code point, as byte values. -/
def utf8bytes (c : Nat) : List Nat :=
  if c < 128 then [c]
  else if c < 2048 then [192 + c / 64, 128 + c % 64]
  else if c < 65536 then [224 + c / 4096, 128 + c / 64 % 64, 128 + c % 64]
  else [240 + c / 262144, 128 + c / 4096 % 64, 128 + c / 64 % 64, 128 + c % 64]

/-- UTF-8 encoding of a Unicode string given as code points. -/
def utf8encode (s : List Nat) : List Nat := (s.map utf8bytes).flatten

/-- A JSON-decoded Python value as `byteify` sees it: dicts and lists are
given by their spines (Python is dynamically typed, so the spine constructors
take arbitrary values), `ustr` is a `unicode` string of code points, `bstr` a
byte string (`str`), and the remaining constructors are the other scalars. -/
inductive PyObj where
  | listNil
  | listCons (head tail : PyObj)
  | dictNil
  | dictCons (key value tail : PyObj)
  | ustr (codepoints : List Nat)
  | bstr (bytes : List Nat)
  | intVal (n : Int)
  | boolVal (b : Bool)
  | noneVal
deriving DecidableEq

/-- `byteify(input)`: rebuild dicts over byteified keys and values, rebuild
lists over byteified elements, UTF-8-encode unicode strings, and return
every other value unchanged. -/
def byteify : PyObj → PyObj
  | PyObj.listNil => PyObj.listNil
  | PyObj.listCons h t => PyObj.listCons (byteify h) (byteify t)
  | PyObj.dictNil => PyObj.dictNil
  | PyObj.dictCons k v t => PyObj.dictCons (byteify k) (byteify v) (byteify t)
  | PyObj.ustr s => PyObj.bstr (utf8encode s)
  | x => x

/-- No `unicode` string occurs anywhere in the value. -/
def noUnicode : PyObj → Bool
  | PyObj.listNil => true
  | PyObj.listCons h t => noUnicode h && noUnicode t
  | PyObj.dictNil => true
  | PyObj.dictCons k v t => noUnicode k && noUnicode v && noUnicode t
  | PyObj.ustr _ => false
  | _ => true

/-- `byteify` returns a unicode-free value. -/
theorem byteify_noUnicode (x : PyObj) : noUnicode (byteify x) = true := by
  induction x <;> simp_all [byteify, noUnicode]

/-- `byteify` is idempotent. -/
theorem byteify_idempotent (x : PyObj) : byteify (byteify x) = byteify x := by
  induction x <;> simp_all [byteify]

/-- C9: `byteify` preserves the dict/list structure (it maps the spine
constructors homomorphically), replaces every unicode string — dict keys
included, since keys are byteified like any value — by its UTF-8 byte-string
encoding, returns every other leaf unchanged, leaves no unicode string in
its output, and is idempotent. -/
theorem byteify_structural_spec :
    (∀ x : PyObj, byteify (byteify x) = byteify x)
    ∧ (∀ x : PyObj, noUnicode (byteify x) = true)
    ∧ (∀ s, byteify (PyObj.ustr s) = PyObj.bstr (utf8encode s))
    ∧ (∀ b, byteify (PyObj.bstr b) = PyObj.bstr b)
    ∧ (∀ n, byteify (PyObj.intVal n) = PyObj.intVal n)
    ∧ (∀ b, byteify (PyObj.boolVal b) = PyObj.boolVal b)
    ∧ byteify PyObj.noneVal = PyObj.noneVal
    ∧ (∀ h t, byteify (PyObj.listCons h t)
        = PyObj.listCons (byteify h) (byteify t))
    ∧ (∀ k v t, byteify (PyObj.dictCons k v t)
        = PyObj.dictCons (byteify k) (byteify v) (byteify t)) :=
  ⟨byteify_idempotent, byteify_noUnicode,
   fun _ => rfl, fun _ => rfl, fun _ => rfl, fun _ => rfl, rfl,
   fun _ _ => rfl, fun _ _ _ => rfl⟩

/-! ## Model of mozci/platforms.py

The repository snapshot holds only the tests of this module
(src/test/test_platforms.py); the functions themselves are modelled from the
specification, as each doc comment marks. -/

/-- Split a character list at spaces, accumulating the current word
reversed. -/
def splitWS : List Char → List Char → List String
  | [], acc => [String.mk acc.reverse]
  | c :: cs, acc =>
    if c = ' ' then String.mk acc.reverse :: splitWS cs []
    else splitWS cs (c :: acc)

/-- The space-separated tokens of a buildername. -/
def tokens (b : String) : List String := splitWS b.toList []

/-- Errors of the platforms module: the spec's UnknownRepoError,
ClassificationError and PreconditionError (all raised as MozciError or
AssertionError in the original). -/
inductive MozciError where
  | unknownRepoError (buildername : String)
  | classificationError (buildername : String)
  | preconditionError
deriving DecidableEq

/-- Modelled from the spec: build type is extracted by searching for the
literal tokens "pgo" or "debug"; absence of both implies opt (§4.1). -/
def build_type (b : String) : String :=
  if (tokens b).contains "pgo" then "pgo"
  else if (tokens b).contains "debug" then "debug"
  else "opt"

/-- Modelled from the spec: the buildername's repo is the token that is a
known repo name; none means the repo is not a known repo (§4.1, §4.3). -/
def repo_of (knownRepos : List String) (b : String) : Option String :=
  (tokens b).find? (fun t => knownRepos.contains t)

/-- Modelled from the spec: the repos where opt is authoritative, whose pgo
variants are excluded (§4.3). -/
def opt_authoritative (repo : String) : Bool :=
  repo == "mozilla-central" || repo == "mozilla-inbound" || repo == "try"

/-- Modelled from the spec: the repos that keep pgo as authoritative (§4.3),
with mozilla-esr* matched by the fixed name stem. -/
def pgo_authoritative (repo : String) : Bool :=
  repo == "mozilla-aurora" || repo == "mozilla-beta"
    || repo == "mozilla-release" || "mozilla-esr".toList.isPrefixOf repo.toList

/-- Modelled from the spec: `_wanted_builder` — fails with UnknownRepoError
when the buildername's repo is not a known repo; a pgo buildername is wanted
unless its repo is opt-authoritative; opt and debug buildernames are always
wanted (§4.3). -/
def wanted_builder (knownRepos : List String) (b : String) :
    Except MozciError Bool :=
  match repo_of knownRepos b with
  | none => Except.error (MozciError.unknownRepoError b)
  | some repo =>
    if build_type b == "pgo" then
      if opt_authoritative repo then Except.ok false else Except.ok true
    else Except.ok true

/-- Split a token list at the first job-kind keyword ("talos" or "test"):
the tokens before it and the keyword with the tokens after it. -/
def splitAtJobKind : List String → Option (List String × List String)
  | [] => none
  | t :: rest =>
    if t = "talos" ∨ t = "test" then some ([], t :: rest)
    else
      match splitAtJobKind rest with
      | some (pre, post) => some (t :: pre, post)
      | none => none

/-- Modelled from the spec: the conflicting pgo sibling of a test/talos
buildername — the same name with "pgo" in place of the (possibly implicit)
opt build-type token before the job-kind keyword (§4.4). -/
def pgo_sibling (pre post : List String) : String :=
  String.intercalate " " ((pre.filter (fun t => !(t == "opt"))) ++ "pgo" :: post)

/-- Modelled from the spec: the reconstructed upstream build buildername —
the tokens before the job-kind keyword, minus the build-type token, followed
by "build", or "leak test build" for debug-type jobs (§4.4). -/
def upstream_name (b : String) (pre : List String) : String :=
  String.intercalate " "
    ((pre.filter (fun t => !(t == "opt") && !(t == "pgo") && !(t == "debug")))
      ++ (if build_type b == "debug" then ["leak", "test", "build"]
          else ["build"]))

/-- Modelled from the spec: `determine_upstream_builder` — ClassificationError
when the buildername is absent from the registry or has no job-kind keyword;
no result (None) when the buildername is opt-typed and its pgo sibling is
also in the registry; otherwise the reconstructed upstream name when that
name is in the registry, and ClassificationError when it is not (§4.4). -/
def determine_upstream_builder (builders : List String) (b : String) :
    Except MozciError (Option String) :=
  if builders.contains b then
    match splitAtJobKind (tokens b) with
    | none => Except.error (MozciError.classificationError b)
    | some (pre, post) =>
      if build_type b == "opt" && builders.contains (pgo_sibling pre post) then
        Except.ok none
      else if builders.contains (upstream_name b pre) then
        Except.ok (some (upstream_name b pre))
      else Except.error (MozciError.classificationError b)
  else Except.error (MozciError.classificationError b)

/-- The registry data consulted by `find_buildernames`: known repo names, the
buildername keys, and each builder record's platform attribute. -/
structure PlatformsRegistry where
  knownRepos : List String
  builders : List String
  platformOf : String → Option String

/-- Modelled from the spec: the suite name of a test/talos buildername is
the remainder of the string following the job-kind keyword (§4.1). -/
def suite_name_of (b : String) : Option String :=
  match splitAtJobKind (tokens b) with
  | some (_, _ :: rest) => some (String.intercalate " " rest)
  | _ => none

/-- Modelled from the spec: `find_buildernames` — asserts that suite_name and
platform are not both unset, then enumerates the repo's buildernames and
keeps those matching the supplied criteria and the wanted-builder policy
(§4.2). -/
def find_buildernames (reg : PlatformsRegistry) (repo : String)
    (suite_name platform job_type : Option String) :
    Except MozciError (List String) :=
  if suite_name.isNone && platform.isNone then
    Except.error MozciError.preconditionError
  else
    Except.ok (reg.builders.filter (fun b =>
      (tokens b).contains repo
      && (match suite_name with
          | none => true
          | some s => suite_name_of b == some s)
      && (match platform with
          | none => true
          | some p => reg.platformOf b == some p)
      && (match job_type with
          | none => true
          | some jt => build_type b == jt)
      && (match wanted_builder reg.knownRepos b with
          | Except.ok true => true
          | _ => false)))

/-- The known repos of the tests' mock registry. -/
def mockRepos : List String :=
  ["mozilla-central", "mozilla-inbound", "mozilla-aurora", "mozilla-beta",
   "mozilla-release", "mozilla-esr38", "mozilla-esr45", "try"]

/-- The buildernames of the tests' mock registry that the upstream
resolution cases touch. -/
def mockBuilders : List String :=
  ["Platform1 try build",
   "Platform1 try leak test build",
   "Platform1 try opt test mochitest-1",
   "Platform1 try debug test mochitest-1",
   "Platform1 try talos tp5o",
   "Platform1 mozilla-beta build",
   "Platform2 mozilla-beta build",
   "Platform1 mozilla-beta pgo talos tp5o",
   "Platform1 mozilla-beta talos tp5o",
   "Platform2 mozilla-beta talos tp5o"]

/-! ## Theorems about the platforms module -/

/-- A repo that keeps pgo authoritative is not one of the opt-authoritative
repos. -/
theorem pgo_not_opt_authoritative (r : String)
    (h : pgo_authoritative r = true) : opt_authoritative r = false := by
  cases hO : opt_authoritative r
  · rfl
  · simp only [opt_authoritative, Bool.or_eq_true, beq_iff_eq] at hO
    rcases hO with (h1 | h1) | h1 <;> subst h1 <;> revert h <;> decide

/-- C4: `_wanted_builder` — for a known repo, a pgo buildername of an
opt-authoritative repo (mozilla-central, mozilla-inbound, try) is not wanted;
a pgo buildername of a pgo-authoritative repo (mozilla-aurora, mozilla-beta,
mozilla-release, mozilla-esr*) is wanted; opt and debug buildernames are
always wanted; and a buildername with no known repo fails with
UnknownRepoError. -/
theorem wanted_builder_policy (knownRepos : List String) (b : String) :
    (∀ repo, repo_of knownRepos b = some repo →
       ((build_type b = "pgo" → opt_authoritative repo = true →
           wanted_builder knownRepos b = Except.ok false)
        ∧ (build_type b = "pgo" → pgo_authoritative repo = true →
           wanted_builder knownRepos b = Except.ok true)
        ∧ ((build_type b = "opt" ∨ build_type b = "debug") →
           wanted_builder knownRepos b = Except.ok true)))
    ∧ (repo_of knownRepos b = none →
       wanted_builder knownRepos b
         = Except.error (MozciError.unknownRepoError b)) := by
  constructor
  · intro repo hrepo
    refine ⟨?_, ?_, ?_⟩
    · intro hbt hopt
      simp [wanted_builder, hrepo, hbt, hopt]
    · intro hbt hpgo
      simp [wanted_builder, hrepo, hbt, pgo_not_opt_authoritative repo hpgo]
    · intro hbt
      have hne : (build_type b == "pgo") = false := by
        rcases hbt with h | h <;> rw [h] <;> decide
      simp [wanted_builder, hrepo, hne]
  · intro hnone
    simp [wanted_builder, hnone]

/-- C4 witness: the policy applied to the tests' concrete buildernames:
mozilla-central pgo unwanted, mozilla-beta pgo wanted, try opt wanted,
unknown repo rejected. -/
theorem wanted_builder_policy_witness :
    wanted_builder mockRepos "Platform1 mozilla-central pgo test mochitest-1"
      = Except.ok false
    ∧ wanted_builder mockRepos "Platform1 mozilla-beta pgo test mochitest-1"
      = Except.ok true
    ∧ wanted_builder mockRepos "Platform1 try opt test mochitest-1"
      = Except.ok true
    ∧ wanted_builder mockRepos "Platform1 non-existent-repo1 pgo test mochitest-1"
      = Except.error (MozciError.unknownRepoError
          "Platform1 non-existent-repo1 pgo test mochitest-1") := by
  refine ⟨?_, ?_, ?_, ?_⟩
  · exact ((wanted_builder_policy mockRepos _).1 "mozilla-central"
      (by decide)).1 (by decide) (by decide)
  · exact ((wanted_builder_policy mockRepos _).1 "mozilla-beta"
      (by decide)).2.1 (by decide) (by decide)
  · exact ((wanted_builder_policy mockRepos _).1 "try"
      (by decide)).2.2 (Or.inl (by decide))
  · exact (wanted_builder_policy mockRepos _).2 (by decide)

/-- C5: `determine_upstream_builder` distinguishes its two failure outcomes:
an opt-typed test/talos buildername whose pgo sibling is also registered
yields no result (None, not an exception); a buildername absent from the
registry, and a buildername whose reconstructed upstream build name is not
registered, each fail with ClassificationError. -/
theorem determine_upstream_failure_modes (builders : List String) (b : String) :
    (builders.contains b = false →
       determine_upstream_builder builders b
         = Except.error (MozciError.classificationError b))
    ∧ (∀ pre post, builders.contains b = true →
       splitAtJobKind (tokens b) = some (pre, post) →
       build_type b = "opt" →
       builders.contains (pgo_sibling pre post) = true →
       determine_upstream_builder builders b = Except.ok none)
    ∧ (∀ pre post, builders.contains b = true →
       splitAtJobKind (tokens b) = some (pre, post) →
       ((build_type b = "opt" ∧ builders.contains (pgo_sibling pre post) = true)
         → False) →
       builders.contains (upstream_name b pre) = false →
       determine_upstream_builder builders b
         = Except.error (MozciError.classificationError b)) := by
  refine ⟨?_, ?_, ?_⟩
  · intro h
    have h2 : ¬ (b ∈ builders) := by simpa using h
    simp [determine_upstream_builder, h2]
  · intro pre post hb hsplit hbt hsib
    have hb2 : b ∈ builders := by simpa using hb
    have hsib2 : pgo_sibling pre post ∈ builders := by simpa using hsib
    simp [determine_upstream_builder, hb2, hsplit, hbt, hsib2]
  · intro pre post hb hsplit hneg hup
    have hb2 : b ∈ builders := by simpa using hb
    have hup2 : ¬ (upstream_name b pre ∈ builders) := by simpa using hup
    have hcond : ¬ (build_type b = "opt" ∧ pgo_sibling pre post ∈ builders) := by
      intro hc
      exact hneg ⟨hc.1, by simpa using hc.2⟩
    simp [determine_upstream_builder, hb2, hsplit, hcond, hup2]

/-- C5 witness: on the mock registry, "Not a valid buildername" (absent) fails
with ClassificationError, while "Platform1 mozilla-beta talos tp5o" (whose
sibling "Platform1 mozilla-beta pgo talos tp5o" is registered) yields None. -/
theorem determine_upstream_failure_modes_witness :
    determine_upstream_builder mockBuilders "Not a valid buildername"
      = Except.error (MozciError.classificationError "Not a valid buildername")
    ∧ determine_upstream_builder mockBuilders "Platform1 mozilla-beta talos tp5o"
      = Except.ok none := by
  refine ⟨?_, ?_⟩
  · exact (determine_upstream_failure_modes mockBuilders _).1 (by decide)
  · exact (determine_upstream_failure_modes mockBuilders _).2.1
      ["Platform1", "mozilla-beta"] ["talos", "tp5o"]
      (by decide) (by decide) (by decide) (by decide)

/-- The model reproduces the remaining mock-registry expectations of
TestDetermineUpstream.test_valid and TestWantedBuilder. -/
theorem platforms_model_matches_tests :
    determine_upstream_builder mockBuilders "Platform1 try opt test mochitest-1"
      = Except.ok (some "Platform1 try build")
    ∧ determine_upstream_builder mockBuilders "Platform1 try debug test mochitest-1"
      = Except.ok (some "Platform1 try leak test build")
    ∧ determine_upstream_builder mockBuilders "Platform1 mozilla-beta pgo talos tp5o"
      = Except.ok (some "Platform1 mozilla-beta build")
    ∧ determine_upstream_builder mockBuilders "Platform2 mozilla-beta talos tp5o"
      = Except.ok (some "Platform2 mozilla-beta build")
    ∧ wanted_builder mockRepos "Platform1 mozilla-aurora pgo test mochitest-1"
      = Except.ok true
    ∧ wanted_builder mockRepos "Platform1 mozilla-esr38 pgo test mochitest-1"
      = Except.ok true
    ∧ wanted_builder mockRepos "Platform1 try pgo test mochitest-1"
      = Except.ok false :=
  ⟨by decide, by decide, by decide, by decide, by decide, by decide, by decide⟩

/-- C6: with both suite_name and platform unset, `find_buildernames` fails
with the precondition error — for every registry (which is therefore never
consulted), every repo and every job_type argument. -/
theorem find_buildernames_precondition (reg : PlatformsRegistry)
    (repo : String) (job_type : Option String) :
    find_buildernames reg repo none none job_type
      = Except.error MozciError.preconditionError := rfl
